import Mathlib

/-!
Shallow embedding of `scripts/prepare-commit-msg.py`, a Git prepare-commit-msg
hook that asks a generative-language API for a Conventional-Commits message
based on the staged diff.

Modelling conventions:
* Python strings are modelled as `List Char` (named `Str`); `String.data`
  converts Lean string literals.
* `str.strip` / `rstrip` are modelled over the ASCII whitespace characters
  (space, tab, newline, carriage return, vertical tab, form feed), the
  characters relevant to this program's data.
* Side effects (the `git diff` subprocess, network calls to the model,
  `time.sleep`, warnings on stderr, the commit-file write) are recorded as an
  explicit event trace.
* The nondeterministic outside world (subprocess outcome, per-attempt remote
  call outcome) is an explicit `HookEnv` input.
* The remote response object is represented by the text that
  `extract_text_from_response` obtains from it: every use of the response in
  the hook goes through that extraction, so the pipeline is modelled from the
  extracted text onward.
-/

namespace PrepareCommitMsg

abbrev Str := List Char

/-- Lean string literal to the `List Char` model. -/
def str (s : String) : Str := s.data

/-- Whitespace test used by the models of `str.strip` / `str.rstrip`. -/
def pyIsSpace (c : Char) : Bool :=
  c == ' ' || c == '\t' || c == '\n' || c == '\r' ||
  c == Char.ofNat 11 || c == Char.ofNat 12

/-- Model of `str.lstrip()` (no argument): drop leading whitespace. -/
def lstrip (l : Str) : Str := l.dropWhile pyIsSpace

/-- Model of `str.rstrip()` (no argument): drop trailing whitespace. -/
def rstrip (l : Str) : Str := (l.reverse.dropWhile pyIsSpace).reverse

/-- Model of `str.strip()` (no argument). -/
def pystrip (l : Str) : Str := rstrip (lstrip l)

/-- The backquote character (U+0060). -/
def backquote : Char := Char.ofNat 96

/-- The double-quote character. -/
def dquote : Char := Char.ofNat 34

/-- The single-quote character. -/
def squote : Char := Char.ofNat 39

/-- A triple-fence marker: three backquotes. -/
def fence : Str := [backquote, backquote, backquote]

/-- Python slice `t[n:-n]`: drop `n` from each end. -/
def cut (n : Nat) (t : Str) : Str := (t.drop n).take (t.length - 2 * n)

/-- Step 1 of `sanitize_generated_text`: strip one layer of wrapping
triple-fence markers (source lines 104-105). -/
def stripFence (t : Str) : Str :=
  if fence.isPrefixOf t && fence.isSuffixOf t then pystrip (cut 3 t) else t

/-- Step 2 of `sanitize_generated_text`: strip one layer of wrapping single
backquotes (source lines 107-108). -/
def stripTick (t : Str) : Str :=
  if [backquote].isPrefixOf t && [backquote].isSuffixOf t then pystrip (cut 1 t) else t

/-- Step 3 of `sanitize_generated_text`: strip one layer of wrapping quotes,
double or single (source lines 110-111). -/
def stripQuotes (t : Str) : Str :=
  if ([dquote].isPrefixOf t && [dquote].isSuffixOf t) ||
     ([squote].isPrefixOf t && [squote].isSuffixOf t) then pystrip (cut 1 t) else t

/-- Model of `sanitize_generated_text` (source lines 98-112): trim whitespace, then the
three single-layer unwrap steps in order. -/
def sanitize_generated_text (text : Str) : Str :=
  if text = [] then []
  else stripQuotes (stripTick (stripFence (pystrip text)))

/-- Model of `str.lower()` (ASCII range, the range these tags use). -/
def pylower (l : Str) : Str := l.map Char.toLower

/-- Model of `is_user_message_source` (source lines 52-57): `None` and the empty string
are falsy in Python, hence proceed; otherwise compare the lowercased tag. -/
def is_user_message_source : Option Str → Bool
  | none => false
  | some s =>
    if s = [] then false
    else pylower s == str "message" || pylower s == str "commit"

/-- Model of Python `s.split(" ")`: split on every single space character. -/
def pysplit : Str → List Str
  | [] => [[]]
  | c :: t => if c = ' ' then [] :: pysplit t else (pysplit t).modifyHead (c :: ·)

/-- Model of Python `sep.join(parts)`. -/
def joinWith (sep : Str) : List Str → Str
  | [] => []
  | [x] => x
  | x :: y :: xs => x ++ sep ++ joinWith sep (y :: xs)

/-- The constant `MAX_SUBJECT_LENGTH` (source line 29). -/
def MAX_SUBJECT_LENGTH : Nat := 50

/-- Subject truncation (source lines 248-252): if the subject exceeds 50
characters take the first 50, and if that slice contains a space drop the
trailing partial word (`" ".join(truncated.split(" ")[:-1]).rstrip()`). -/
def truncate_subject (subject : Str) : Str :=
  if MAX_SUBJECT_LENGTH < subject.length then
    if ' ' ∈ subject.take MAX_SUBJECT_LENGTH then
      rstrip (joinWith [' '] ((pysplit (subject.take MAX_SUBJECT_LENGTH)).dropLast))
    else subject.take MAX_SUBJECT_LENGTH
  else subject

/-- Worker for the model of `str.splitlines()`: accumulates the current line
(reversed) and splits at `\n`, `\r\n` and `\r`. -/
def splitlinesGo (acc : Str) : Str → List Str
  | [] => [acc.reverse]
  | '\n' :: rest =>
    acc.reverse :: (if rest = [] then [] else splitlinesGo [] rest)
  | '\r' :: '\n' :: rest =>
    acc.reverse :: (if rest = [] then [] else splitlinesGo [] rest)
  | '\r' :: rest =>
    acc.reverse :: (if rest = [] then [] else splitlinesGo [] rest)
  | c :: rest => splitlinesGo (c :: acc) rest

/-- Model of Python `str.splitlines()` on the line breaks this program can
meet (`\n`, `\r\n`, `\r`): the empty string gives no lines, and a trailing
line break does not open a final empty line. -/
def pysplitlines (l : Str) : List Str :=
  if l = [] then [] else splitlinesGo [] l

/-- Source lines 244-254: split the cleaned text into lines (`None` when there
are none), strip and truncate the subject, right-strip the joined remaining
lines as body, and reassemble with a blank line before a non-empty body. -/
def assembleMessage (cleaned : Str) : Option Str :=
  match pysplitlines cleaned with
  | [] => none
  | first :: restLines =>
    let subject := truncate_subject (pystrip first)
    let rest := rstrip (joinWith (str "\n") restLines)
    some (subject ++ (if rest = [] then [] else str "\n\n" ++ rest))

/-- Outcome of the `subprocess.run(["git", "diff", "--staged"], ...)` call:
either the call raised (e.g. the tool is missing) or it completed with an
exit status and captured stdout (`check=False`: no exception on non-zero). -/
inductive DiffOutcome where
  | raised (msg : Str)
  | completed (exitCode : Int) (stdout : Str)
deriving DecidableEq

/-- Observable side effects of a hook run. -/
inductive Event where
  | subprocessCall
  | networkCall (attempt : Nat)
  | sleep (secs : Nat)
  | warn
  | fileWrite (path : Str) (content : Str)
deriving DecidableEq

/-- Model of `get_staged_diff` (source lines 60-72): invoke the subprocess; on a raised
exception warn on stderr and return the empty string; on completion return the
captured stdout unconditionally (`check=False`, `result.stdout or ""`). -/
def get_staged_diff : DiffOutcome → Str × List Event
  | .raised _ => ([], [.subprocessCall, .warn])
  | .completed _ out => (out, [.subprocessCall])

/-- Model of `read_api_key` (source lines 33-38): `os.environ.get` yields `None` when
unset; `if not key` treats `None` and the empty string as missing. -/
def read_api_key : Option Str → Except Str Str
  | none => .error (str "GEMINI_API_KEY environment variable is not set.")
  | some k =>
    if k = [] then .error (str "GEMINI_API_KEY environment variable is not set.")
    else .ok k

/-- The fixed instruction template of `build_prompt` (source lines 76-94),
after the `.strip()` applied to the literal and up to the diff placeholder. -/
def promptHead : Str := str
  "You are an expert software developer and git maintainer. Based on the staged git diff below, compose a concise, high-quality commit message using the Conventional Commits format.\n\nRequirements (must follow exactly):\n- Output only the raw commit message with no commentary, explanation, or markdown formatting.\n- Use Conventional Commits types (e.g., feat, fix, docs, chore, refactor, perf, test).\n- Enforce a 50-character limit for the SUBJECT line (the first line). If necessary, shorten the subject to fit 50 characters while remaining clear.\n- The commit message should have a subject line (type: short summary) and, optionally, a blank line followed by a more detailed body if the changes require it.\n- Do NOT include surrounding backticks or triple-backticks in your output.\n\nFormat example to emulate exactly (subject <= 50 chars):\nfeat(parser): add support for X\n\nAdd a short descriptive body if necessary. Keep the body lines reasonably wrapped.\n\nStaged git diff (do not invent changes, base message only on the diff below):\n\n"

/-- Model of `build_prompt` (source lines 75-95): the stripped template with the diff
substituted at its end. -/
def build_prompt (diff_text : Str) : Str := promptHead ++ diff_text

/-- The transient-error marker substrings (source line 219). -/
def transientMarkers : List Str :=
  [str "503", str "UNAVAILABLE", str "overloaded", str "rate limit",
   str "rate_limited", str "timeout", str "timed out"]

/-- Model of Python `needle in haystack` on strings: substring containment. -/
def strIn (needle : Str) : Str → Bool
  | [] => needle.isEmpty
  | c :: t => needle.isPrefixOf (c :: t) || strIn needle t

/-- Transient-error heuristic (source lines 217-220): scan the error text for
any marker substring. -/
def isTransient (msg : Str) : Bool :=
  transientMarkers.any (fun m => strIn m msg)

/-- Result of the retry loop around `run_gemini` (source lines 209-235). -/
inductive RetryResult where
  | success (text : Str)
  | fatal (msg : Str)
  | gaveUp
deriving DecidableEq

/-- The constant `max_attempts` (source line 209). -/
def max_attempts : Nat := 3

/-- The retry loop (source lines 211-235). `f` maps the attempt number to the
remote call's outcome, an error text or the extracted response text; `fuel` is
the number of attempts still allowed, so the loop starts at attempt 1 with
fuel `max_attempts`. A success breaks out; a non-transient error becomes a
fatal `RuntimeError`; a transient error with attempts left warns, sleeps
`2 ^ (attempt - 1)` seconds and retries; a transient error on the last
attempt warns and gives up (`return None`). -/
def geminiLoop (f : Nat → Except Str Str) : Nat → Nat → RetryResult × List Event
  | _, 0 => (.gaveUp, [])
  | attempt, fuel + 1 =>
    match f attempt with
    | .ok t => (.success t, [.networkCall attempt])
    | .error m =>
      if isTransient m then
        if fuel = 0 then (.gaveUp, [.networkCall attempt, .warn])
        else
          let r := geminiLoop f (attempt + 1) fuel
          (r.1, .networkCall attempt :: .warn :: .sleep (2 ^ (attempt - 1)) :: r.2)
      else (.fatal (str "Gemini API call failed: " ++ m), [.networkCall attempt])

/-- The hook's environment: the optional commit-source tag, the outcome the
`git diff` subprocess would have, the `GEMINI_API_KEY` variable (`none` when
unset), and the outcome each remote call would have given the prompt and the
attempt number (the success text is the extracted response text). -/
structure HookEnv where
  commitSource : Option Str
  diff : DiffOutcome
  apiKey : Option Str
  gemini : Str → Nat → Except Str Str

/-- How `run_hook` ends: a normal return carrying the optional generated
message, a raised `ValueError`, or a raised `RuntimeError`. -/
inductive HookOutcome where
  | ok (message : Option Str)
  | valueError (msg : Str)
  | runtimeError (msg : Str)
deriving DecidableEq

/-- Model of `run_hook` (source lines 188-263) as outcome plus event trace. -/
def run_hook (env : HookEnv) (commit_msg_filepath : Str) (dryRun : Bool) :
    HookOutcome × List Event :=
  if is_user_message_source env.commitSource then (.ok none, [])
  else
    let diffText := (get_staged_diff env.diff).1
    let ev0 := (get_staged_diff env.diff).2
    if pystrip diffText = [] then (.ok none, ev0)
    else
      match read_api_key env.apiKey with
      | .error e => (.valueError e, ev0)
      | .ok _ =>
        let r := geminiLoop (env.gemini (build_prompt diffText)) 1 max_attempts
        match r.1 with
        | .fatal m => (.runtimeError m, ev0 ++ r.2)
        | .gaveUp => (.ok none, ev0 ++ r.2)
        | .success t =>
          let cleaned := sanitize_generated_text t
          if cleaned = [] then
            (.runtimeError (str "No text returned from Gemini or failed to parse response."),
             ev0 ++ r.2)
          else
            match assembleMessage cleaned with
            | none => (.ok none, ev0 ++ r.2)
            | some finalMsg =>
              if dryRun then (.ok (some finalMsg), ev0 ++ r.2)
              else
                (.ok (some finalMsg),
                 ev0 ++ r.2 ++ [.fileWrite commit_msg_filepath (finalMsg ++ str "\n")])

/-- Model of `main` (source lines 266-286): run the hook and map the outcome to the
process exit code (`ValueError` to 1, `RuntimeError` to 2, otherwise 0). -/
def mainEntry (env : HookEnv) (commit_msg_filepath : Str) (dryRun : Bool) :
    Nat × List Event :=
  let r := run_hook env commit_msg_filepath dryRun
  (match r.1 with
   | .ok _ => 0
   | .valueError _ => 1
   | .runtimeError _ => 2, r.2)

/-- The sleep durations occurring in a trace, in order. -/
def sleeps (evs : List Event) : List Nat :=
  evs.filterMap fun e => match e with | .sleep n => some n | _ => none

/-- The attempt numbers of the network calls in a trace, in order. -/
def networkCalls (evs : List Event) : List Nat :=
  evs.filterMap fun e => match e with | .networkCall n => some n | _ => none

/-- Whether an event is a write to the commit-message file. -/
def isWrite : Event → Bool
  | .fileWrite _ _ => true
  | _ => false

/-- A trace leaves the commit-message file untouched. -/
def noWrites (evs : List Event) : Bool := evs.all (fun e => !isWrite e)

/-! ### Lemmas on the whitespace-stripping primitives -/

theorem dropWhile_head_false {α} (p : α → Bool) :
    ∀ (l : List α) {c : α} {t : List α}, l.dropWhile p = c :: t → p c = false
  | [], _, _ => by simp [List.dropWhile]
  | a :: l, c, t => by
    intro h
    rw [List.dropWhile_cons] at h
    by_cases ha : p a = true
    · rw [if_pos ha] at h
      exact dropWhile_head_false p l h
    · rw [if_neg ha] at h
      cases h
      simpa using ha

theorem dropWhile_idem {α} (p : α → Bool) (l : List α) :
    (l.dropWhile p).dropWhile p = l.dropWhile p := by
  cases h : l.dropWhile p with
  | nil => simp
  | cons c t =>
    rw [List.dropWhile_cons, if_neg]
    simp [dropWhile_head_false p l h]

theorem lstrip_idem (l : Str) : lstrip (lstrip l) = lstrip l :=
  dropWhile_idem _ l

theorem rstrip_idem (l : Str) : rstrip (rstrip l) = rstrip l := by
  unfold rstrip
  rw [List.reverse_reverse, dropWhile_idem]

theorem rstrip_decomp (l : Str) :
    ∃ w, l = rstrip l ++ w ∧ ∀ c ∈ w, pyIsSpace c = true := by
  refine ⟨(l.reverse.takeWhile pyIsSpace).reverse, ?_, ?_⟩
  · calc l = l.reverse.reverse := (List.reverse_reverse l).symm
    _ = (l.reverse.takeWhile pyIsSpace ++ l.reverse.dropWhile pyIsSpace).reverse := by
        rw [List.takeWhile_append_dropWhile]
    _ = rstrip l ++ (l.reverse.takeWhile pyIsSpace).reverse := by
        rw [List.reverse_append]; rfl
  · intro c hc
    rw [List.mem_reverse] at hc
    exact List.mem_takeWhile_imp hc

theorem rstrip_prefix_self (l : Str) : rstrip l <+: l := by
  obtain ⟨w, hw, -⟩ := rstrip_decomp l
  exact ⟨w, hw.symm⟩

theorem rstrip_getLast? (l : Str) {c : Char} (h : (rstrip l).getLast? = some c) :
    pyIsSpace c = false := by
  unfold rstrip at h
  rw [List.getLast?_reverse] at h
  cases hd : l.reverse.dropWhile pyIsSpace with
  | nil => rw [hd] at h; simp at h
  | cons a t =>
    rw [hd] at h
    simp only [List.head?_cons, Option.some.injEq] at h
    subst h
    exact dropWhile_head_false _ _ hd

theorem lstrip_rstrip_lstrip (l : Str) : lstrip (rstrip (lstrip l)) = rstrip (lstrip l) := by
  cases h : rstrip (lstrip l) with
  | nil => rfl
  | cons c t =>
    obtain ⟨w, hw⟩ := rstrip_prefix_self (lstrip l)
    rw [h] at hw
    have heq : lstrip (c :: (t ++ w)) = c :: (t ++ w) := by
      have h2 := lstrip_idem l
      rw [← hw] at h2
      simpa using h2
    by_cases hc : pyIsSpace c = true
    · exfalso
      unfold lstrip at heq
      rw [List.dropWhile_cons, if_pos hc] at heq
      have hlen := congrArg List.length heq
      have hle := (List.dropWhile_sublist (p := pyIsSpace) (l := t ++ w)).length_le
      simp only [List.length_cons] at hlen
      omega
    · unfold lstrip
      rw [List.dropWhile_cons, if_neg hc]

theorem pystrip_idem (l : Str) : pystrip (pystrip l) = pystrip l := by
  show rstrip (lstrip (rstrip (lstrip l))) = rstrip (lstrip l)
  rw [lstrip_rstrip_lstrip, rstrip_idem]

/-! ### Lemmas on the sanitizer -/

theorem stripFence_stripped {t : Str} (h : pystrip t = t) :
    pystrip (stripFence t) = stripFence t := by
  unfold stripFence
  split
  · exact pystrip_idem _
  · exact h

theorem stripTick_stripped {t : Str} (h : pystrip t = t) :
    pystrip (stripTick t) = stripTick t := by
  unfold stripTick
  split
  · exact pystrip_idem _
  · exact h

theorem stripQuotes_stripped {t : Str} (h : pystrip t = t) :
    pystrip (stripQuotes t) = stripQuotes t := by
  unfold stripQuotes
  split
  · exact pystrip_idem _
  · exact h

theorem sanitize_stripped (s : Str) :
    pystrip (sanitize_generated_text s) = sanitize_generated_text s := by
  unfold sanitize_generated_text
  split
  · rfl
  · exact stripQuotes_stripped (stripTick_stripped (stripFence_stripped (pystrip_idem _)))

theorem sanitize_fixed {u : Str} (hstr : pystrip u = u)
    (h1 : (fence.isPrefixOf u && fence.isSuffixOf u) = false)
    (h2 : ([backquote].isPrefixOf u && [backquote].isSuffixOf u) = false)
    (h3 : (([dquote].isPrefixOf u && [dquote].isSuffixOf u) ||
           ([squote].isPrefixOf u && [squote].isSuffixOf u)) = false) :
    sanitize_generated_text u = u := by
  by_cases hu : u = []
  · rw [hu]
    rfl
  · unfold sanitize_generated_text
    rw [if_neg hu, hstr]
    unfold stripFence
    rw [h1]
    simp only [Bool.false_eq_true, if_false]
    unfold stripTick
    rw [h2]
    simp only [Bool.false_eq_true, if_false]
    unfold stripQuotes
    rw [h3]
    simp only [Bool.false_eq_true, if_false]

/-- C2 counterexample: on the input `` "``x``" `` one sanitization pass yields
`` "`x`" `` (the two-backquote ends pass the single-backquote test once), and a
second pass strips again, so the sanitizer is not idempotent as claimed. -/
theorem claim_C2_counterexample :
    sanitize_generated_text (sanitize_generated_text (str "``x``")) ≠
      sanitize_generated_text (str "``x``") := by decide

/-- C2 (amended): sanitization is idempotent on every string whose sanitized
form is not still wrapped — it does not both start and end with a triple
fence, nor with a single backquote, nor with matching quote characters. -/
theorem claim_C2 (s : Str)
    (h1 : (fence.isPrefixOf (sanitize_generated_text s) &&
           fence.isSuffixOf (sanitize_generated_text s)) = false)
    (h2 : ([backquote].isPrefixOf (sanitize_generated_text s) &&
           [backquote].isSuffixOf (sanitize_generated_text s)) = false)
    (h3 : (([dquote].isPrefixOf (sanitize_generated_text s) &&
            [dquote].isSuffixOf (sanitize_generated_text s)) ||
           ([squote].isPrefixOf (sanitize_generated_text s) &&
            [squote].isSuffixOf (sanitize_generated_text s))) = false) :
    sanitize_generated_text (sanitize_generated_text s) = sanitize_generated_text s :=
  sanitize_fixed (sanitize_stripped s) h1 h2 h3

/-- C2 witness: the amended idempotence applied to a concrete fenced input. -/
theorem claim_C2_witness :
    sanitize_generated_text (sanitize_generated_text (str "```feat: x```")) =
      sanitize_generated_text (str "```feat: x```") :=
  claim_C2 (str "```feat: x```") (by decide) (by decide) (by decide)

example : sanitize_generated_text (str "```feat: x```") = str "feat: x" := by decide

example :
    sanitize_generated_text (sanitize_generated_text (str "``x``")) ≠
      sanitize_generated_text (str "``x``") := by decide

example : truncate_subject (str "aaaaaaaaaa bbbbbbbbbb cccccccccc dddddddddd eeeeeeeeee fff") =
    str "aaaaaaaaaa bbbbbbbbbb cccccccccc dddddddddd" := by decide

example : is_user_message_source (some (str "MESSAGE")) = true := by decide

example : is_user_message_source (some (str "template")) = false := by decide

example : pysplitlines (str "a\n\nb\n") = [str "a", [], str "b"] := by decide

/-! ### The source gate (claims C9, C10) -/

theorem gate_iff (tag : Str) (h : tag ≠ []) :
    is_user_message_source (some tag) = true ↔
      (pylower tag = str "message" ∨ pylower tag = str "commit") := by
  show (if tag = [] then false
        else pylower tag == str "message" || pylower tag == str "commit") = true ↔ _
  rw [if_neg h]
  simp

theorem lowered_tag_ne_nil {tag : Str}
    (hlow : pylower tag = str "message" ∨ pylower tag = str "commit") : tag ≠ [] := by
  intro h0
  subst h0
  rcases hlow with h | h
  · exact absurd h (by decide)
  · exact absurd h (by decide)

/-- C10: the source gate lowercases a non-empty tag and skips exactly when the
result is `message` or `commit`. -/
theorem claim_C10 (tag : Str) (h : tag ≠ []) :
    is_user_message_source (some tag) = true ↔
      (pylower tag = str "message" ∨ pylower tag = str "commit") :=
  gate_iff tag h

/-- C10 witness: `MESSAGE` lowercases to `message`, hence skips. -/
theorem claim_C10_witness : is_user_message_source (some (str "MESSAGE")) = true :=
  (claim_C10 (str "MESSAGE") (by decide)).mpr (Or.inl (by decide))

/-- C9: with a commit-source tag whose lowercase form is `message` or
`commit`, the pipeline returns no message and performs no side effects
whatever the rest of the environment holds; an absent tag lets the pipeline
proceed. -/
theorem claim_C9 :
    (∀ (env : HookEnv) (path : Str) (dry : Bool) (tag : Str),
        env.commitSource = some tag →
        (pylower tag = str "message" ∨ pylower tag = str "commit") →
        run_hook env path dry = (.ok none, [])) ∧
      is_user_message_source none = false := by
  constructor
  · intro env path dry tag htag hlow
    have hg : is_user_message_source env.commitSource = true := by
      rw [htag]
      exact (gate_iff tag (lowered_tag_ne_nil hlow)).mpr hlow
    unfold run_hook
    rw [hg]
    simp
  · rfl

/-- C9 witness: a concrete environment carrying the `Commit` tag and a
non-empty staged diff still produces no message and no side effects. -/
theorem claim_C9_witness :
    run_hook
      { commitSource := some (str "Commit"), diff := .completed 0 (str "+x"),
        apiKey := some (str "key"), gemini := fun _ _ => .ok (str "feat: x") }
      (str "COMMIT_EDITMSG") false = (.ok none, []) :=
  claim_C9.1 _ (str "COMMIT_EDITMSG") false (str "Commit") rfl (Or.inr (by decide))

/-! ### Trace bookkeeping for the diff collector -/

theorem diff_sleeps (d : DiffOutcome) : sleeps (get_staged_diff d).2 = [] := by
  cases d <;> rfl

theorem diff_networkCalls (d : DiffOutcome) : networkCalls (get_staged_diff d).2 = [] := by
  cases d <;> rfl

theorem diff_noWrites (d : DiffOutcome) : noWrites (get_staged_diff d).2 = true := by
  cases d <;> rfl

theorem diff_trace_cases (d : DiffOutcome) :
    (get_staged_diff d).2 = [.subprocessCall, .warn] ∨
      (get_staged_diff d).2 = [.subprocessCall] := by
  cases d
  · exact Or.inl rfl
  · exact Or.inr rfl

theorem sleeps_append (a b : List Event) : sleeps (a ++ b) = sleeps a ++ sleeps b :=
  List.filterMap_append a b _

theorem networkCalls_append (a b : List Event) :
    networkCalls (a ++ b) = networkCalls a ++ networkCalls b :=
  List.filterMap_append a b _

theorem noWrites_append (a b : List Event) :
    noWrites (a ++ b) = (noWrites a && noWrites b) :=
  List.all_append

/-! ### Unrolling the retry loop -/

theorem geminiLoop_ok {f : Nat → Except Str Str} {a : Nat} {t : Str} (n : Nat)
    (h : f a = .ok t) : geminiLoop f a (n + 1) = (.success t, [.networkCall a]) := by
  unfold geminiLoop
  rw [h]

theorem geminiLoop_fatal {f : Nat → Except Str Str} {a : Nat} {m : Str} (n : Nat)
    (h : f a = .error m) (ht : isTransient m = false) :
    geminiLoop f a (n + 1) =
      (.fatal (str "Gemini API call failed: " ++ m), [.networkCall a]) := by
  unfold geminiLoop
  rw [h]
  simp [ht]

theorem geminiLoop_transient {f : Nat → Except Str Str} {a : Nat} {m : Str} (n : Nat)
    (h : f a = .error m) (ht : isTransient m = true) (hn : n ≠ 0) :
    geminiLoop f a (n + 1) =
      ((geminiLoop f (a + 1) n).1,
        .networkCall a :: .warn :: .sleep (2 ^ (a - 1)) :: (geminiLoop f (a + 1) n).2) := by
  conv_lhs => unfold geminiLoop
  rw [h]
  simp [ht, hn]

theorem geminiLoop_exhaust {f : Nat → Except Str Str} {a : Nat} {m : Str}
    (h : f a = .error m) (ht : isTransient m = true) :
    geminiLoop f a (0 + 1) = (.gaveUp, [.networkCall a, .warn]) := by
  unfold geminiLoop
  rw [h]
  simp [ht]

/-! ### Unrolling `run_hook` stage by stage -/

theorem run_hook_emptyDiff (env : HookEnv) (path : Str) (dry : Bool)
    (hskip : is_user_message_source env.commitSource = false)
    (hd : pystrip (get_staged_diff env.diff).1 = []) :
    run_hook env path dry = (.ok none, (get_staged_diff env.diff).2) := by
  unfold run_hook
  rw [hskip]
  simp [hd]

theorem run_hook_keyMissing (env : HookEnv) (path : Str) (dry : Bool) (e : Str)
    (hskip : is_user_message_source env.commitSource = false)
    (hd : pystrip (get_staged_diff env.diff).1 ≠ [])
    (hkey : read_api_key env.apiKey = .error e) :
    run_hook env path dry = (.valueError e, (get_staged_diff env.diff).2) := by
  unfold run_hook
  rw [hskip]
  simp [hd, hkey]

theorem run_hook_fatal (env : HookEnv) (path : Str) (dry : Bool) (k m : Str)
    (evs : List Event)
    (hskip : is_user_message_source env.commitSource = false)
    (hd : pystrip (get_staged_diff env.diff).1 ≠ [])
    (hkey : read_api_key env.apiKey = .ok k)
    (hloop : geminiLoop (env.gemini (build_prompt (get_staged_diff env.diff).1)) 1
        max_attempts = (.fatal m, evs)) :
    run_hook env path dry = (.runtimeError m, (get_staged_diff env.diff).2 ++ evs) := by
  unfold run_hook
  rw [hskip]
  simp [hd, hkey, hloop]

theorem run_hook_gaveUp (env : HookEnv) (path : Str) (dry : Bool) (k : Str)
    (evs : List Event)
    (hskip : is_user_message_source env.commitSource = false)
    (hd : pystrip (get_staged_diff env.diff).1 ≠ [])
    (hkey : read_api_key env.apiKey = .ok k)
    (hloop : geminiLoop (env.gemini (build_prompt (get_staged_diff env.diff).1)) 1
        max_attempts = (.gaveUp, evs)) :
    run_hook env path dry = (.ok none, (get_staged_diff env.diff).2 ++ evs) := by
  unfold run_hook
  rw [hskip]
  simp [hd, hkey, hloop]

theorem run_hook_cleanEmpty (env : HookEnv) (path : Str) (dry : Bool) (k t : Str)
    (evs : List Event)
    (hskip : is_user_message_source env.commitSource = false)
    (hd : pystrip (get_staged_diff env.diff).1 ≠ [])
    (hkey : read_api_key env.apiKey = .ok k)
    (hloop : geminiLoop (env.gemini (build_prompt (get_staged_diff env.diff).1)) 1
        max_attempts = (.success t, evs))
    (hclean : sanitize_generated_text t = []) :
    run_hook env path dry =
      (.runtimeError (str "No text returned from Gemini or failed to parse response."),
       (get_staged_diff env.diff).2 ++ evs) := by
  unfold run_hook
  rw [hskip]
  simp [hd, hkey, hloop, hclean]

theorem run_hook_success (env : HookEnv) (path : Str) (dry : Bool) (k t : Str)
    (evs : List Event)
    (hskip : is_user_message_source env.commitSource = false)
    (hd : pystrip (get_staged_diff env.diff).1 ≠ [])
    (hkey : read_api_key env.apiKey = .ok k)
    (hloop : geminiLoop (env.gemini (build_prompt (get_staged_diff env.diff).1)) 1
        max_attempts = (.success t, evs))
    (hclean : sanitize_generated_text t ≠ []) :
    (run_hook env path dry).1 = .ok (assembleMessage (sanitize_generated_text t)) ∧
      sleeps (run_hook env path dry).2 = sleeps evs ∧
      networkCalls (run_hook env path dry).2 = networkCalls evs := by
  unfold run_hook
  rw [hskip]
  simp only [Bool.false_eq_true, if_false, hd, ite_false, hkey, hloop, hclean]
  cases hasm : assembleMessage (sanitize_generated_text t) with
  | none =>
    rcases diff_trace_cases env.diff with h2 | h2 <;>
      simp [hasm, hd, h2, sleeps_append, networkCalls_append, sleeps, networkCalls]
  | some finalMsg =>
    rcases diff_trace_cases env.diff with h2 | h2 <;> cases dry <;>
      simp [hasm, hd, h2, sleeps_append, networkCalls_append, sleeps, networkCalls]

theorem mainEntry_code (env : HookEnv) (path : Str) (dry : Bool) :
    (mainEntry env path dry).1 =
      (match (run_hook env path dry).1 with
       | .ok _ => 0
       | .valueError _ => 1
       | .runtimeError _ => 2) := rfl

theorem mainEntry_trace (env : HookEnv) (path : Str) (dry : Bool) :
    (mainEntry env path dry).2 = (run_hook env path dry).2 := rfl

theorem run_hook_skip (env : HookEnv) (path : Str) (dry : Bool)
    (hskip : is_user_message_source env.commitSource = true) :
    run_hook env path dry = (.ok none, []) := by
  unfold run_hook
  rw [hskip]
  simp

theorem transient_of_503 {m : Str} (h : strIn (str "503") m = true) :
    isTransient m = true := by
  unfold isTransient transientMarkers
  simp [h]

/-! ### Claim C1: missing credential -/

/-- C1 counterexample: with `GEMINI_API_KEY` unset, no skip tag and a
non-empty staged diff, the run does exit with code 1, but the `git diff`
subprocess has already been invoked before that failure, contradicting the
claim that no subprocess invocation happens first. -/
theorem claim_C1_counterexample :
    (mainEntry
        { commitSource := none, diff := .completed 0 (str "+x"), apiKey := none,
          gemini := fun _ _ => .ok (str "feat: x") } (str "COMMIT_EDITMSG") false).1 = 1 ∧
      Event.subprocessCall ∈
        (mainEntry
            { commitSource := none, diff := .completed 0 (str "+x"), apiKey := none,
              gemini := fun _ _ => .ok (str "feat: x") } (str "COMMIT_EDITMSG") false).2 := by
  decide

/-- C1 (amended): with the credential unset or empty, a non-skip source and a
non-empty staged diff, the run fails with exit code 1 and no network call is
made before that failure — but the staged-diff subprocess is invoked before
the credential check, so its invocation does precede the failure. -/
theorem claim_C1 (env : HookEnv) (path : Str) (dry : Bool) (code : Int) (out : Str)
    (hkey : env.apiKey = none ∨ env.apiKey = some [])
    (hskip : is_user_message_source env.commitSource = false)
    (hdiff : env.diff = .completed code out)
    (hne : pystrip out ≠ []) :
    (mainEntry env path dry).1 = 1 ∧
      networkCalls (mainEntry env path dry).2 = [] ∧
      Event.subprocessCall ∈ (mainEntry env path dry).2 := by
  have hek : read_api_key env.apiKey =
      .error (str "GEMINI_API_KEY environment variable is not set.") := by
    rcases hkey with h | h <;> rw [h] <;> rfl
  have hd : pystrip (get_staged_diff env.diff).1 ≠ [] := by
    rw [hdiff]
    exact hne
  have hrun := run_hook_keyMissing env path dry _ hskip hd hek
  refine ⟨?_, ?_, ?_⟩
  · rw [mainEntry_code, hrun]
  · rw [mainEntry_trace, hrun]
    exact diff_networkCalls env.diff
  · rw [mainEntry_trace, hrun, hdiff]
    exact List.mem_singleton.mpr rfl

/-- C1 witness: the amended statement at a concrete environment. -/
theorem claim_C1_witness :
    (mainEntry
        { commitSource := none, diff := .completed 0 (str "+a"), apiKey := some [],
          gemini := fun _ _ => .ok (str "x") } (str "f") true).1 = 1 ∧
      networkCalls
        (mainEntry
            { commitSource := none, diff := .completed 0 (str "+a"), apiKey := some [],
              gemini := fun _ _ => .ok (str "x") } (str "f") true).2 = [] ∧
      Event.subprocessCall ∈
        (mainEntry
            { commitSource := none, diff := .completed 0 (str "+a"), apiKey := some [],
              gemini := fun _ _ => .ok (str "x") } (str "f") true).2 :=
  claim_C1 _ (str "f") true 0 (str "+a") (Or.inr rfl) rfl rfl (by decide)

/-! ### Claim C3: diff-collector failure handling -/

/-- C3 counterexample: a completed `git diff` with non-zero exit status 1 is a
failure outcome, yet the collector returns the captured stdout unchanged (not
empty text) and emits no warning, because `check=False` raises nothing. -/
theorem claim_C3_counterexample :
    (get_staged_diff (.completed 1 (str "x"))).1 ≠ [] ∧
      Event.warn ∉ (get_staged_diff (.completed 1 (str "x"))).2 := by
  decide

/-- C3 (amended): on a raised exception (tool missing included) the collector
returns empty text and warns on the diagnostic stream; on a completed
invocation it returns the captured stdout whatever the exit status, with no
warning; a whitespace-only diff then stops the pipeline with no message, exit
code 0, no network call and the target file untouched. -/
theorem claim_C3 :
    (∀ m, get_staged_diff (.raised m) = ([], [.subprocessCall, .warn])) ∧
      (∀ (code : Int) (out : Str),
        get_staged_diff (.completed code out) = (out, [.subprocessCall])) ∧
      (∀ (env : HookEnv) (path : Str) (dry : Bool),
        is_user_message_source env.commitSource = false →
        pystrip (get_staged_diff env.diff).1 = [] →
        run_hook env path dry = (.ok none, (get_staged_diff env.diff).2) ∧
          (mainEntry env path dry).1 = 0 ∧
          noWrites (run_hook env path dry).2 = true ∧
          networkCalls (run_hook env path dry).2 = []) := by
  refine ⟨fun m => rfl, fun c o => rfl, fun env path dry hskip hd => ?_⟩
  have hrun := run_hook_emptyDiff env path dry hskip hd
  refine ⟨hrun, ?_, ?_, ?_⟩
  · rw [mainEntry_code, hrun]
  · rw [hrun]
    exact diff_noWrites env.diff
  · rw [hrun]
    exact diff_networkCalls env.diff

/-- C3 witness: the amended statement at concrete inputs — a raised tool
failure, and a completed empty diff flowing through the pipeline. -/
theorem claim_C3_witness :
    get_staged_diff (.raised (str "FileNotFoundError")) = ([], [.subprocessCall, .warn]) ∧
      run_hook
        { commitSource := none, diff := .completed 0 (str "  \n"),
          apiKey := some (str "key"), gemini := fun _ _ => .ok (str "x") }
        (str "f") false = (.ok none, [.subprocessCall]) :=
  ⟨claim_C3.1 (str "FileNotFoundError"),
   (claim_C3.2.2
      { commitSource := none, diff := .completed 0 (str "  \n"),
        apiKey := some (str "key"), gemini := fun _ _ => .ok (str "x") }
      (str "f") false rfl (by decide)).1⟩

/-! ### Claim C5: two transient failures then success -/

/-- C5: when the first two remote attempts raise errors containing `503` and
the third succeeds with usable text, the hook's returned message is the
sanitized-and-assembled text of the third attempt, and exactly two backoff
sleeps occur, of 1 second then 2 seconds. -/
theorem claim_C5 (env : HookEnv) (path : Str) (dry : Bool) (k m1 m2 t : Str)
    (hskip : is_user_message_source env.commitSource = false)
    (hd : pystrip (get_staged_diff env.diff).1 ≠ [])
    (hkey : read_api_key env.apiKey = .ok k)
    (h1 : env.gemini (build_prompt (get_staged_diff env.diff).1) 1 = .error m1)
    (h1t : strIn (str "503") m1 = true)
    (h2 : env.gemini (build_prompt (get_staged_diff env.diff).1) 2 = .error m2)
    (h2t : strIn (str "503") m2 = true)
    (h3 : env.gemini (build_prompt (get_staged_diff env.diff).1) 3 = .ok t)
    (hclean : sanitize_generated_text t ≠ []) :
    (run_hook env path dry).1 = .ok (assembleMessage (sanitize_generated_text t)) ∧
      sleeps (run_hook env path dry).2 = [1, 2] := by
  set f := env.gemini (build_prompt (get_staged_diff env.diff).1) with hf
  have e3 : geminiLoop f 3 1 = (.success t, [.networkCall 3]) := geminiLoop_ok 0 h3
  have e2 : geminiLoop f 2 2 =
      (.success t, [.networkCall 2, .warn, .sleep 2, .networkCall 3]) := by
    have h22 : geminiLoop f 2 2 =
        ((geminiLoop f 3 1).1,
          .networkCall 2 :: .warn :: .sleep 2 :: (geminiLoop f 3 1).2) :=
      geminiLoop_transient 1 h2 (transient_of_503 h2t) (by decide)
    rw [h22, e3]
  have e1 : geminiLoop f 1 max_attempts =
      (.success t,
       [.networkCall 1, .warn, .sleep 1, .networkCall 2, .warn, .sleep 2,
        .networkCall 3]) := by
    have h13 : geminiLoop f 1 max_attempts =
        ((geminiLoop f 2 2).1,
          .networkCall 1 :: .warn :: .sleep 1 :: (geminiLoop f 2 2).2) :=
      geminiLoop_transient 2 h1 (transient_of_503 h1t) (by decide)
    rw [h13, e2]
  have hs := run_hook_success env path dry k t _ hskip hd hkey e1 hclean
  refine ⟨hs.1, ?_⟩
  rw [hs.2.1]
  rfl

/-- C5 witness: the scenario at a concrete environment whose remote stub
fails twice with `503` texts and then returns a commit message. -/
theorem claim_C5_witness :
    (run_hook
        { commitSource := none, diff := .completed 0 (str "+print"),
          apiKey := some (str "key"),
          gemini := fun _ n =>
            match n with
            | 1 => .error (str "503 Service Unavailable")
            | 2 => .error (str "got 503 again")
            | _ => .ok (str "feat: add hello print") } (str "f") true).1 =
      .ok (assembleMessage (sanitize_generated_text (str "feat: add hello print"))) ∧
      sleeps
        (run_hook
            { commitSource := none, diff := .completed 0 (str "+print"),
              apiKey := some (str "key"),
              gemini := fun _ n =>
                match n with
                | 1 => .error (str "503 Service Unavailable")
                | 2 => .error (str "got 503 again")
                | _ => .ok (str "feat: add hello print") } (str "f") true).2 = [1, 2] :=
  claim_C5 _ (str "f") true (str "key") (str "503 Service Unavailable")
    (str "got 503 again") (str "feat: add hello print") rfl (by decide) rfl rfl
    (by decide) rfl (by decide) rfl (by decide)

/-! ### Claim C6: all attempts transient -/

/-- C6: when all three remote attempts raise transient-classified errors, the
hook does not raise — it warns, produces no message, touches no file, and the
process exits with code 0. -/
theorem claim_C6 (env : HookEnv) (path : Str) (dry : Bool) (k m1 m2 m3 : Str)
    (hskip : is_user_message_source env.commitSource = false)
    (hd : pystrip (get_staged_diff env.diff).1 ≠ [])
    (hkey : read_api_key env.apiKey = .ok k)
    (h1 : env.gemini (build_prompt (get_staged_diff env.diff).1) 1 = .error m1)
    (h1t : isTransient m1 = true)
    (h2 : env.gemini (build_prompt (get_staged_diff env.diff).1) 2 = .error m2)
    (h2t : isTransient m2 = true)
    (h3 : env.gemini (build_prompt (get_staged_diff env.diff).1) 3 = .error m3)
    (h3t : isTransient m3 = true) :
    (run_hook env path dry).1 = .ok none ∧
      (mainEntry env path dry).1 = 0 ∧
      Event.warn ∈ (run_hook env path dry).2 ∧
      noWrites (run_hook env path dry).2 = true := by
  set f := env.gemini (build_prompt (get_staged_diff env.diff).1) with hf
  have e3 : geminiLoop f 3 1 = (.gaveUp, [.networkCall 3, .warn]) :=
    geminiLoop_exhaust h3 h3t
  have e2 : geminiLoop f 2 2 =
      (.gaveUp, [.networkCall 2, .warn, .sleep 2, .networkCall 3, .warn]) := by
    have h22 : geminiLoop f 2 2 =
        ((geminiLoop f 3 1).1,
          .networkCall 2 :: .warn :: .sleep 2 :: (geminiLoop f 3 1).2) :=
      geminiLoop_transient 1 h2 h2t (by decide)
    rw [h22, e3]
  have e1 : geminiLoop f 1 max_attempts =
      (.gaveUp,
       [.networkCall 1, .warn, .sleep 1, .networkCall 2, .warn, .sleep 2,
        .networkCall 3, .warn]) := by
    have h13 : geminiLoop f 1 max_attempts =
        ((geminiLoop f 2 2).1,
          .networkCall 1 :: .warn :: .sleep 1 :: (geminiLoop f 2 2).2) :=
      geminiLoop_transient 2 h1 h1t (by decide)
    rw [h13, e2]
  have hrun := run_hook_gaveUp env path dry k _ hskip hd hkey e1
  refine ⟨by rw [hrun], by rw [mainEntry_code, hrun], ?_, ?_⟩
  · rw [hrun]
    exact List.mem_append_right _ (by decide)
  · rw [hrun, noWrites_append, diff_noWrites]
    rfl

/-- C6 witness: the scenario at a concrete environment whose remote stub
raises a transient error on every attempt. -/
theorem claim_C6_witness :
    (run_hook
        { commitSource := none, diff := .completed 0 (str "+print"),
          apiKey := some (str "key"),
          gemini := fun _ _ => .error (str "model overloaded, try later") }
        (str "f") false).1 = .ok none ∧
      (mainEntry
          { commitSource := none, diff := .completed 0 (str "+print"),
            apiKey := some (str "key"),
            gemini := fun _ _ => .error (str "model overloaded, try later") }
          (str "f") false).1 = 0 ∧
      Event.warn ∈
        (run_hook
            { commitSource := none, diff := .completed 0 (str "+print"),
              apiKey := some (str "key"),
              gemini := fun _ _ => .error (str "model overloaded, try later") }
            (str "f") false).2 ∧
      noWrites
        (run_hook
            { commitSource := none, diff := .completed 0 (str "+print"),
              apiKey := some (str "key"),
              gemini := fun _ _ => .error (str "model overloaded, try later") }
            (str "f") false).2 = true :=
  claim_C6 _ (str "f") false (str "key") (str "model overloaded, try later")
    (str "model overloaded, try later") (str "model overloaded, try later")
    rfl (by decide) rfl rfl (by decide) rfl (by decide) rfl (by decide)

/-! ### Claim C7: non-transient failure aborts at once -/

/-- C7: when the first remote attempt raises an error classified as
non-transient (no marker substring in its text), the pipeline aborts with a
fatal `RuntimeError` and exit code 2, after exactly one network call, with no
retries and no backoff sleeps. -/
theorem claim_C7 (env : HookEnv) (path : Str) (dry : Bool) (k m : Str)
    (hskip : is_user_message_source env.commitSource = false)
    (hd : pystrip (get_staged_diff env.diff).1 ≠ [])
    (hkey : read_api_key env.apiKey = .ok k)
    (h1 : env.gemini (build_prompt (get_staged_diff env.diff).1) 1 = .error m)
    (ht : isTransient m = false) :
    (run_hook env path dry).1 = .runtimeError (str "Gemini API call failed: " ++ m) ∧
      (mainEntry env path dry).1 = 2 ∧
      sleeps (run_hook env path dry).2 = [] ∧
      networkCalls (run_hook env path dry).2 = [1] := by
  have hloop : geminiLoop (env.gemini (build_prompt (get_staged_diff env.diff).1)) 1
      max_attempts = (.fatal (str "Gemini API call failed: " ++ m), [.networkCall 1]) :=
    geminiLoop_fatal 2 h1 ht
  have hrun :=
    run_hook_fatal env path dry k (str "Gemini API call failed: " ++ m) _ hskip hd hkey hloop
  refine ⟨by rw [hrun], by rw [mainEntry_code, hrun], ?_, ?_⟩
  · rw [hrun, sleeps_append, diff_sleeps]
    rfl
  · rw [hrun, networkCalls_append, diff_networkCalls]
    rfl

/-- C7 witness: a remote stub raising `invalid api key`, which contains none
of the transient markers. -/
theorem claim_C7_witness :
    (run_hook
        { commitSource := none, diff := .completed 0 (str "+x"),
          apiKey := some (str "key"),
          gemini := fun _ _ => .error (str "invalid api key") } (str "f") false).1 =
      .runtimeError (str "Gemini API call failed: " ++ str "invalid api key") ∧
      (mainEntry
          { commitSource := none, diff := .completed 0 (str "+x"),
            apiKey := some (str "key"),
            gemini := fun _ _ => .error (str "invalid api key") } (str "f") false).1 = 2 ∧
      sleeps
        (run_hook
            { commitSource := none, diff := .completed 0 (str "+x"),
              apiKey := some (str "key"),
              gemini := fun _ _ => .error (str "invalid api key") } (str "f") false).2 = [] ∧
      networkCalls
        (run_hook
            { commitSource := none, diff := .completed 0 (str "+x"),
              apiKey := some (str "key"),
              gemini := fun _ _ => .error (str "invalid api key") } (str "f") false).2 = [1] :=
  claim_C7 _ (str "f") false (str "key") (str "invalid api key") rfl (by decide)
    rfl rfl (by decide)

/-! ### Claim C8: the exit-code taxonomy -/

/-- C8: the process exit code is 0 on success — including the user-supplied
message skip, the empty-diff skip and a generated message — 1 on a missing
credential, and 2 on other runtime errors: a non-transient remote failure and
an empty-after-sanitization result. -/
theorem claim_C8 :
    (∀ (env : HookEnv) (path : Str) (dry : Bool),
        is_user_message_source env.commitSource = true →
        (mainEntry env path dry).1 = 0) ∧
      (∀ (env : HookEnv) (path : Str) (dry : Bool),
        pystrip (get_staged_diff env.diff).1 = [] →
        (mainEntry env path dry).1 = 0) ∧
      (∀ (env : HookEnv) (path : Str) (dry : Bool) (e : Str),
        is_user_message_source env.commitSource = false →
        pystrip (get_staged_diff env.diff).1 ≠ [] →
        read_api_key env.apiKey = .error e →
        (mainEntry env path dry).1 = 1) ∧
      (∀ (env : HookEnv) (path : Str) (dry : Bool) (k m : Str),
        is_user_message_source env.commitSource = false →
        pystrip (get_staged_diff env.diff).1 ≠ [] →
        read_api_key env.apiKey = .ok k →
        env.gemini (build_prompt (get_staged_diff env.diff).1) 1 = .error m →
        isTransient m = false →
        (mainEntry env path dry).1 = 2) ∧
      (∀ (env : HookEnv) (path : Str) (dry : Bool) (k t : Str),
        is_user_message_source env.commitSource = false →
        pystrip (get_staged_diff env.diff).1 ≠ [] →
        read_api_key env.apiKey = .ok k →
        env.gemini (build_prompt (get_staged_diff env.diff).1) 1 = .ok t →
        sanitize_generated_text t = [] →
        (mainEntry env path dry).1 = 2) ∧
      (∀ (env : HookEnv) (path : Str) (dry : Bool) (k t : Str),
        is_user_message_source env.commitSource = false →
        pystrip (get_staged_diff env.diff).1 ≠ [] →
        read_api_key env.apiKey = .ok k →
        env.gemini (build_prompt (get_staged_diff env.diff).1) 1 = .ok t →
        sanitize_generated_text t ≠ [] →
        (mainEntry env path dry).1 = 0) := by
  refine ⟨?_, ?_, ?_, ?_, ?_, ?_⟩
  · intro env path dry hskip
    rw [mainEntry_code, run_hook_skip env path dry hskip]
  · intro env path dry hd
    by_cases hskip : is_user_message_source env.commitSource = true
    · rw [mainEntry_code, run_hook_skip env path dry hskip]
    · rw [mainEntry_code,
        run_hook_emptyDiff env path dry (Bool.not_eq_true _ ▸ hskip) hd]
  · intro env path dry e hskip hd hkey
    rw [mainEntry_code, run_hook_keyMissing env path dry e hskip hd hkey]
  · intro env path dry k m hskip hd hkey h1 ht
    have hloop : geminiLoop (env.gemini (build_prompt (get_staged_diff env.diff).1)) 1
        max_attempts =
        (.fatal (str "Gemini API call failed: " ++ m), [.networkCall 1]) :=
      geminiLoop_fatal 2 h1 ht
    rw [mainEntry_code,
      run_hook_fatal env path dry k (str "Gemini API call failed: " ++ m) _ hskip hd hkey hloop]
  · intro env path dry k t hskip hd hkey h1 hclean
    have hloop : geminiLoop (env.gemini (build_prompt (get_staged_diff env.diff).1)) 1
        max_attempts = (.success t, [.networkCall 1]) :=
      geminiLoop_ok 2 h1
    rw [mainEntry_code,
      run_hook_cleanEmpty env path dry k t _ hskip hd hkey hloop hclean]
  · intro env path dry k t hskip hd hkey h1 hclean
    have hloop : geminiLoop (env.gemini (build_prompt (get_staged_diff env.diff).1)) 1
        max_attempts = (.success t, [.networkCall 1]) :=
      geminiLoop_ok 2 h1
    have hs := run_hook_success env path dry k t _ hskip hd hkey hloop hclean
    rw [mainEntry_code, hs.1]

/-- C8 witness: each exit-code case at a concrete environment — skip tag,
empty diff, missing key, non-transient failure, output sanitizing to nothing
(six backquotes), and a normal success. -/
theorem claim_C8_witness :
    (mainEntry
        { commitSource := some (str "message"), diff := .completed 0 (str "+x"),
          apiKey := some (str "key"), gemini := fun _ _ => .ok (str "x") }
        (str "f") false).1 = 0 ∧
      (mainEntry
          { commitSource := none, diff := .completed 0 [],
            apiKey := some (str "key"), gemini := fun _ _ => .ok (str "x") }
          (str "f") false).1 = 0 ∧
      (mainEntry
          { commitSource := none, diff := .completed 0 (str "+x"),
            apiKey := none, gemini := fun _ _ => .ok (str "x") }
          (str "f") false).1 = 1 ∧
      (mainEntry
          { commitSource := none, diff := .completed 0 (str "+x"),
            apiKey := some (str "key"), gemini := fun _ _ => .error (str "bad request") }
          (str "f") false).1 = 2 ∧
      (mainEntry
          { commitSource := none, diff := .completed 0 (str "+x"),
            apiKey := some (str "key"), gemini := fun _ _ => .ok (str "``````") }
          (str "f") false).1 = 2 ∧
      (mainEntry
          { commitSource := none, diff := .completed 0 (str "+x"),
            apiKey := some (str "key"), gemini := fun _ _ => .ok (str "feat: x") }
          (str "f") false).1 = 0 :=
  ⟨claim_C8.1 _ (str "f") false (by decide),
   claim_C8.2.1 _ (str "f") false (by decide),
   claim_C8.2.2.1 _ (str "f") false (str "GEMINI_API_KEY environment variable is not set.")
     rfl (by decide) rfl,
   claim_C8.2.2.2.1 _ (str "f") false (str "key") (str "bad request")
     rfl (by decide) rfl rfl (by decide),
   claim_C8.2.2.2.2.1 _ (str "f") false (str "key") (str "``````")
     rfl (by decide) rfl rfl (by decide),
   claim_C8.2.2.2.2.2 _ (str "f") false (str "key") (str "feat: x")
     rfl (by decide) rfl rfl (by decide)⟩

/-! ### Claim C4: subject truncation at a word boundary -/

theorem pysplit_cons_sep (t : Str) : pysplit (' ' :: t) = [] :: pysplit t := by
  simp [pysplit]

theorem pysplit_cons_ne {c : Char} (h : c ≠ ' ') (t : Str) :
    pysplit (c :: t) = (pysplit t).modifyHead (c :: ·) := by
  simp [pysplit, h]

theorem pysplit_ne_nil : ∀ l : Str, pysplit l ≠ []
  | [] => by simp [pysplit]
  | c :: t => by
    by_cases hc : c = ' '
    · subst hc
      rw [pysplit_cons_sep]
      simp
    · rw [pysplit_cons_ne hc]
      intro hcon
      have := congrArg List.length hcon
      rw [List.length_modifyHead] at this
      exact pysplit_ne_nil t (List.length_eq_zero.mp this)

theorem pysplit_no_sep : ∀ {b : Str}, ' ' ∉ b → pysplit b = [b]
  | [], _ => rfl
  | c :: t, hb => by
    have hc : c ≠ ' ' := fun h => hb (h ▸ List.mem_cons_self c t)
    have ht : ' ' ∉ t := fun h => hb (List.mem_cons_of_mem c h)
    rw [pysplit_cons_ne hc, pysplit_no_sep ht]
    rfl

theorem pysplit_len2 : ∀ {l : Str}, ' ' ∈ l → 2 ≤ (pysplit l).length
  | [], h => absurd h (List.not_mem_nil ' ')
  | c :: t, h => by
    by_cases hc : c = ' '
    · subst hc
      rw [pysplit_cons_sep]
      have := List.length_pos.mpr (pysplit_ne_nil t)
      simp only [List.length_cons]
      omega
    · have ht : ' ' ∈ t := by
        rcases List.mem_cons.mp h with h1 | h1
        · exact absurd h1.symm hc
        · exact h1
      rw [pysplit_cons_ne hc, List.length_modifyHead]
      exact pysplit_len2 ht

theorem joinWith_cons_ne (s x : Str) {Q : List Str} (h : Q ≠ []) :
    joinWith s (x :: Q) = x ++ s ++ joinWith s Q := by
  cases Q with
  | nil => exact absurd rfl h
  | cons q qs => rfl

theorem join_dropLast_pysplit {b : Str} (hb : ' ' ∉ b) :
    ∀ a : Str, joinWith [' '] ((pysplit (a ++ ' ' :: b)).dropLast) = a := by
  intro a
  induction a with
  | nil =>
    rw [List.nil_append, pysplit_cons_sep, pysplit_no_sep hb]
    rfl
  | cons c a2 ih =>
    have hmem : ' ' ∈ a2 ++ ' ' :: b := List.mem_append_right _ (List.mem_cons_self _ _)
    have hlen2 : 2 ≤ (pysplit (a2 ++ ' ' :: b)).length := pysplit_len2 hmem
    by_cases hc : c = ' '
    · subst hc
      rw [List.cons_append, pysplit_cons_sep,
        List.dropLast_cons_of_ne_nil (pysplit_ne_nil _)]
      have hQ : (pysplit (a2 ++ ' ' :: b)).dropLast ≠ [] := by
        apply List.length_pos.mp
        rw [List.length_dropLast]
        omega
      rw [joinWith_cons_ne _ _ hQ, ih]
      rfl
    · rw [List.cons_append, pysplit_cons_ne hc]
      obtain ⟨p, ps, hP⟩ : ∃ p ps, pysplit (a2 ++ ' ' :: b) = p :: ps := by
        cases hPP : pysplit (a2 ++ ' ' :: b) with
        | nil => exact absurd hPP (pysplit_ne_nil _)
        | cons p ps => exact ⟨p, ps, rfl⟩
      rw [hP]
      have hps : ps ≠ [] := by
        rw [hP] at hlen2
        simp only [List.length_cons] at hlen2
        intro hcon
        subst hcon
        simp at hlen2
      show joinWith [' '] (((c :: p) :: ps).dropLast) = c :: a2
      rw [List.dropLast_cons_of_ne_nil hps]
      rw [hP, List.dropLast_cons_of_ne_nil hps] at ih
      by_cases hq : ps.dropLast = []
      · rw [hq] at ih ⊢
        show c :: p = c :: a2
        rw [show p = a2 from ih]
      · rw [joinWith_cons_ne _ _ hq] at ih
        rw [joinWith_cons_ne _ _ hq, ← ih]
        simp

theorem mem_last_split : ∀ {l : Str}, ' ' ∈ l → ∃ a b, l = a ++ ' ' :: b ∧ ' ' ∉ b
  | [], h => absurd h (List.not_mem_nil ' ')
  | c :: t, h => by
    by_cases ht : ' ' ∈ t
    · obtain ⟨a, b, hab, hb⟩ := mem_last_split ht
      exact ⟨c :: a, b, by rw [List.cons_append, hab], hb⟩
    · rcases List.mem_cons.mp h with h1 | h1
      · exact ⟨[], t, by rw [List.nil_append, ← h1], ht⟩
      · exact absurd h1 ht

/-- C4: for a sanitized subject longer than 50 characters, if a space occurs
in the first 50 characters the truncated subject is a prefix of the original
of length at most 50 ending in a non-whitespace character and followed in the
original by a whitespace character (the trailing partial word is dropped and
trailing whitespace stripped); with no space in the first 50 characters the
result is exactly the first 50 characters. -/
theorem claim_C4 (subject : Str) (hlen : MAX_SUBJECT_LENGTH < subject.length) :
    (' ' ∈ subject.take MAX_SUBJECT_LENGTH →
        (truncate_subject subject).length ≤ MAX_SUBJECT_LENGTH ∧
          truncate_subject subject <+: subject ∧
          (∀ c, (truncate_subject subject).getLast? = some c → pyIsSpace c = false) ∧
          (∃ c, (subject.drop (truncate_subject subject).length).head? = some c ∧
            pyIsSpace c = true)) ∧
      (' ' ∉ subject.take MAX_SUBJECT_LENGTH →
        truncate_subject subject = subject.take MAX_SUBJECT_LENGTH) := by
  constructor
  · intro hsp
    obtain ⟨a, b, hab, hb⟩ := mem_last_split hsp
    have hjoin : joinWith [' '] ((pysplit (subject.take MAX_SUBJECT_LENGTH)).dropLast) = a := by
      rw [hab]
      exact join_dropLast_pysplit hb a
    have htr : truncate_subject subject = rstrip a := by
      unfold truncate_subject
      rw [if_pos hlen, if_pos hsp, hjoin]
    obtain ⟨w, hw, hwsp⟩ := rstrip_decomp a
    refine ⟨?_, ?_, ?_, ?_⟩
    · rw [htr]
      have h1 : (rstrip a).length ≤ a.length := (rstrip_prefix_self a).length_le
      have h2 : a.length ≤ (subject.take MAX_SUBJECT_LENGTH).length := by
        rw [hab]
        simp
      have h3 : (subject.take MAX_SUBJECT_LENGTH).length ≤ MAX_SUBJECT_LENGTH :=
        List.length_take_le _ _
      omega
    · rw [htr]
      have hpre2 : a <+: subject.take MAX_SUBJECT_LENGTH := ⟨' ' :: b, hab.symm⟩
      have hpre3 : subject.take MAX_SUBJECT_LENGTH <+: subject :=
        ⟨subject.drop MAX_SUBJECT_LENGTH, List.take_append_drop _ _⟩
      exact (rstrip_prefix_self a).trans (hpre2.trans hpre3)
    · intro c hc
      rw [htr] at hc
      exact rstrip_getLast? a hc
    · rw [htr]
      have hsub : subject =
          rstrip a ++ (w ++ (' ' :: (b ++ subject.drop MAX_SUBJECT_LENGTH))) := by
        conv_lhs => rw [← List.take_append_drop MAX_SUBJECT_LENGTH subject]
        rw [hab]
        conv_lhs => rw [hw]
        simp
      rw [hsub, List.drop_left]
      cases w with
      | nil => exact ⟨' ', rfl, by decide⟩
      | cons c0 w2 =>
        exact ⟨c0, rfl, hwsp c0 (List.mem_cons_self _ _)⟩
  · intro hsp
    unfold truncate_subject
    rw [if_pos hlen, if_neg hsp]

/-- C4 witness: both branches at concrete subjects — one with a space before
the 50-character cut, one without. -/
theorem claim_C4_witness :
    ((truncate_subject
          (str "aaaaaaaaaa bbbbbbbbbb cccccccccc dddddddddd eeeeeeeeee fff")).length ≤
        MAX_SUBJECT_LENGTH ∧
      truncate_subject
          (str "aaaaaaaaaa bbbbbbbbbb cccccccccc dddddddddd eeeeeeeeee fff") <+:
        str "aaaaaaaaaa bbbbbbbbbb cccccccccc dddddddddd eeeeeeeeee fff") ∧
      truncate_subject
          (str "aaaaaaaaaabbbbbbbbbbccccccccccddddddddddeeeeeeeeeefff") =
        (str "aaaaaaaaaabbbbbbbbbbccccccccccddddddddddeeeeeeeeeefff").take
          MAX_SUBJECT_LENGTH := by
  have h1 :=
    (claim_C4 (str "aaaaaaaaaa bbbbbbbbbb cccccccccc dddddddddd eeeeeeeeee fff")
        (by decide)).1 (by decide)
  have h2 :=
    (claim_C4 (str "aaaaaaaaaabbbbbbbbbbccccccccccddddddddddeeeeeeeeeefff")
        (by decide)).2 (by decide)
  exact ⟨⟨h1.1, h1.2.1⟩, h2⟩

end PrepareCommitMsg
